import Mathlib

/-
Verification of the client-side escrow orchestrator (src/src/app.tsx) of the
escrow-frontend repository.

The embedding models the React component state relevant to action gating as an
explicit structure, the gating booleans as Lean Boolean functions translated
line by line from the source, and the imperative action handlers as pure
functions producing an outcome value (thrown error, local rejection, or a
submission reaching the wallet write). Machine integers of the source
(JavaScript bigint, all non-negative in the snapshot) are modelled as Nat;
JavaScript strings are modelled as Lean String with its List Char content,
including an explicit model of String.prototype.trim.
-/

/-- The role derived for the connected account (type Role, app.tsx:112). -/
inductive Role where
  | client
  | freelancer
  | oracle
  | unknown
  | unset
deriving DecidableEq

/-- The kinds of the pendingAction field (app.tsx:269). -/
inductive ActionKind where
  | approve
  | deposit
  | payFee
  | submitProofA
  | approveJob
  | raiseDisputeA
  | requestRevisionA
  | startJobA
  | refund
  | createEscrow
  | proposeResolution
  | finalizeDispute
deriving DecidableEq

/-- The on-chain snapshot and form state the gating expressions read
(React state of App, app.tsx:219-293). escrowState is number-or-null, the
other numeric fields are non-negative bigints, modelled as Nat. -/
structure AppState where
  escrowState : Option Nat
  depositAmount : Nat
  accruedFees : Nat
  FEE : Nat
  depositDeadline : Nat
  startDeadline : Nat
  completionDeadline : Nat
  revisions : Nat
  MAX_REVISIONS : Nat
  disputeStart : Nat
  DISPUTE_GRACE : Nat
  disputeAssertionId : Nat
  disputeAssertionExpiration : Nat
  tokenAllowance : Nat
  desiredAmount : Nat
  tokenApprovedOnce : Bool
deriving DecidableEq

/-- clientHasDeposit (app.tsx:659): depositAmount > 0n. -/
def clientHasDeposit (s : AppState) : Bool := decide (0 < s.depositAmount)

/-- clientPaidFee (app.tsx:660): accruedFees >= FEE && FEE > 0n. -/
def clientPaidFee (s : AppState) : Bool :=
  decide (s.FEE ≤ s.accruedFees) && decide (0 < s.FEE)

/-- isDepositDeadlineExceeded (app.tsx:663-664). The parameter t is the
wall-clock now() at evaluation time. -/
def isDepositDeadlineExceeded (s : AppState) (t : Nat) : Bool :=
  decide (s.escrowState = some 0) && decide (0 < s.depositDeadline) &&
    decide (s.depositDeadline < t)

/-- isStartDeadlineExceeded (app.tsx:665-670). -/
def isStartDeadlineExceeded (s : AppState) (t : Nat) : Bool :=
  decide (s.escrowState = some 0) && decide (0 < s.startDeadline) &&
    decide (s.startDeadline < t) && clientHasDeposit s && clientPaidFee s

/-- isApprovedEnough (app.tsx:676-677): tokenAllowance >= desiredAmount &&
desiredAmount > 0n. -/
def isApprovedEnough (s : AppState) : Bool :=
  decide (s.desiredAmount ≤ s.tokenAllowance) && decide (0 < s.desiredAmount)

/-- canClientApproveToken (app.tsx:679-680). -/
def canClientApproveToken (s : AppState) (t : Nat) : Bool :=
  decide (s.escrowState = some 0) && !isApprovedEnough s &&
    !isDepositDeadlineExceeded s t

/-- canClientDeposit (app.tsx:682-686). -/
def canClientDeposit (s : AppState) (t : Nat) : Bool :=
  decide (s.escrowState = some 0) && isApprovedEnough s && !clientHasDeposit s &&
    !isDepositDeadlineExceeded s t

/-- canRefundNoStart (app.tsx:689): equals isStartDeadlineExceeded. -/
def canRefundNoStart (s : AppState) (t : Nat) : Bool := isStartDeadlineExceeded s t

/-- canClientApprove (app.tsx:691): escrowState === 2. -/
def canClientApprove (s : AppState) : Bool := decide (s.escrowState = some 2)

/-- canClientRevise (app.tsx:692): escrowState === 2, with no condition on
revisions or MAX_REVISIONS. -/
def canClientRevise (s : AppState) : Bool := decide (s.escrowState = some 2)

/-- canRaiseDispute (app.tsx:693): escrowState === 2 || escrowState === 4. -/
def canRaiseDispute (s : AppState) : Bool :=
  decide (s.escrowState = some 2) || decide (s.escrowState = some 4)

/-- canFreelancerStart (app.tsx:695-699). -/
def canFreelancerStart (s : AppState) (t : Nat) : Bool :=
  decide (s.escrowState = some 0) && decide (t ≤ s.startDeadline) &&
    clientHasDeposit s && clientPaidFee s

/-- canFreelancerSubmit (app.tsx:700-701). -/
def canFreelancerSubmit (s : AppState) (t : Nat) : Bool :=
  (decide (s.escrowState = some 1) || decide (s.escrowState = some 4)) &&
    decide (t ≤ s.completionDeadline)

/-- canOracleSettle (app.tsx:702-703): escrowState === 5 &&
now() >= disputeStart + DISPUTE_GRACE. -/
def canOracleSettle (s : AppState) (t : Nat) : Bool :=
  decide (s.escrowState = some 5) && decide (s.disputeStart + s.DISPUTE_GRACE ≤ t)

/-- Render condition of the Pay Fee button inside the Client Actions panel
(app.tsx:2839-2841): escrowState === 0 && clientHasDeposit && !clientPaidFee. -/
def canClientPayFee (s : AppState) : Bool :=
  decide (s.escrowState = some 0) && clientHasDeposit s && !clientPaidFee s

/-- emptyAssertion (app.tsx:1672-1674): the 32-byte assertion id equals the
zero hash; the id is modelled by its numeric value. -/
def emptyAssertion (s : AppState) : Bool := decide (s.disputeAssertionId = 0)

/-- graceEndsAt (app.tsx:1677-1680): 0 when disputeStart or DISPUTE_GRACE is 0,
otherwise their sum. -/
def graceEndsAt (s : AppState) : Nat :=
  if s.disputeStart = 0 ∨ s.DISPUTE_GRACE = 0 then 0
  else s.disputeStart + s.DISPUTE_GRACE

/-- canProposeNow (app.tsx:1682-1685): false when graceEndsAt is 0, otherwise
now() >= graceEndsAt. -/
def canProposeNow (s : AppState) (t : Nat) : Bool :=
  if graceEndsAt s = 0 then false else decide (graceEndsAt s ≤ t)

/-- Gate of the UMA Finalize button: the panel renders only when
escrowState === 5 (app.tsx:2537) with a non-zero assertion id (app.tsx:2643),
and the button is enabled only when the liveness expiration has passed
(app.tsx:2647-2652). -/
def canFinalizeUma (s : AppState) (t : Nat) : Bool :=
  decide (s.escrowState = some 5) && !emptyAssertion s &&
    !(decide (0 < s.disputeAssertionExpiration) &&
      decide (t < s.disputeAssertionExpiration))

/-- showClient (app.tsx:705). -/
def showClient (role : Role) : Bool := decide (role = Role.client)

/-- clientHasActions (app.tsx:709-718): the Client Actions panel renders only
when this holds. -/
def clientHasActions (role : Role) (s : AppState) (t : Nat) : Bool :=
  showClient role && !isDepositDeadlineExceeded s t &&
    ((decide (s.escrowState = some 0) &&
        (!s.tokenApprovedOnce || !clientHasDeposit s || !clientPaidFee s)) ||
      decide (s.escrowState = some 2) || canRefundNoStart s t)

/-- Full visibility condition of the Pay Fee button (app.tsx:2788, 2839-2842):
the Client Actions panel condition, the in-panel render condition, and the
pendingAction guard of the button. -/
def payFeeButtonShown (role : Role) (s : AppState) (t : Nat)
    (pendingAction : Option ActionKind) : Bool :=
  clientHasActions role s t && canClientPayFee s &&
    (decide (pendingAction = none) || decide (pendingAction = some ActionKind.payFee))

/-- Result of a submission attempt through the orchestrator. The busy
constructor exists to state the specified Busy-rejection property; the source
never produces it. -/
inductive SubmitOutcome where
  | busy
  | invoked
deriving DecidableEq

/-- withPending (app.tsx:1057-1078): it unconditionally sets
pendingAction := action and invokes the handler fn, regardless of any
previously pending action. Returns the outcome together with the new value of
pendingAction. -/
def withPendingSubmit (pendingAction : Option ActionKind) (action : ActionKind) :
    SubmitOutcome × Option ActionKind :=
  let _ := pendingAction
  (SubmitOutcome.invoked, some action)

/-- Result classes of the wallet_switchEthereumChain request as discriminated
by ensureCurrentChain (app.tsx:618-640): success, error code 4902 or -32601
(chain not added), error code 4001 (user rejected), anything else. -/
inductive SwitchReqResult where
  | approved
  | chainNotAdded
  | rejectedByUser
  | otherError
deriving DecidableEq

/-- Result of the wallet_addEthereumChain request plus the follow-up switch
inside the inner try of ensureCurrentChain (app.tsx:621-635). -/
inductive AddReqResult where
  | approvedAndSwitched
  | failed
deriving DecidableEq

/-- The wallet-side environment ensureCurrentChain interacts with. -/
structure NetworkEnv where
  providerReady : Bool
  walletChainId : Nat
  targetChainId : Nat
  switchReq : SwitchReqResult
  addReq : AddReqResult
deriving DecidableEq

/-- The observable result of ensureCurrentChain. Every constructor corresponds
to a normal return of the source function (app.tsx:579-642): each failure path
only shows a toast and returns, so the function never throws to its caller. -/
inductive EnsureOutcome where
  | noProvider
  | alreadyCorrect
  | switched
  | addedAndSwitched
  | addFailed
  | switchCancelled
  | switchFailed
  | unsupported
deriving DecidableEq

/-- ensureCurrentChain (app.tsx:579-642), translated branch by branch. The
supported targets are bscTestnet (97) and baseSepolia (84532); any other
target hits the unsupported toast-and-return (app.tsx:607-610). -/
def ensureCurrentChain (env : NetworkEnv) : EnsureOutcome :=
  if ¬env.providerReady then EnsureOutcome.noProvider
  else if env.walletChainId = env.targetChainId then EnsureOutcome.alreadyCorrect
  else if env.targetChainId ≠ 97 ∧ env.targetChainId ≠ 84532 then
    EnsureOutcome.unsupported
  else
    match env.switchReq with
    | SwitchReqResult.approved => EnsureOutcome.switched
    | SwitchReqResult.chainNotAdded =>
        match env.addReq with
        | AddReqResult.approvedAndSwitched => EnsureOutcome.addedAndSwitched
        | AddReqResult.failed => EnsureOutcome.addFailed
    | SwitchReqResult.rejectedByUser => EnsureOutcome.switchCancelled
    | SwitchReqResult.otherError => EnsureOutcome.switchFailed

/-- Outcome of running an action handler: an exception reached the outer
catch, a local toast-and-return rejection, or the handler reached the
wallet.writeContract call inside withPending. -/
inductive MutationOutcome where
  | thrown
  | rejectedLocal
  | submitted
deriving DecidableEq

/-- depositFn (app.tsx:1441-1488): guard chain, then ensureCurrentChain (whose
result is ignored by the source, which continues in every case), then the
zero-amount local rejection (app.tsx:1459-1462), then the contract write. The
first component records whether and how ensureCurrentChain ran; none means the
guards threw before reaching it. -/
def depositFn (connected : Bool) (role : Role) (s : AppState) (amtBigInt : Nat)
    (env : NetworkEnv) : Option EnsureOutcome × MutationOutcome :=
  if ¬connected then (none, MutationOutcome.thrown)
  else if role ≠ Role.client then (none, MutationOutcome.thrown)
  else if s.escrowState ≠ some 0 then (none, MutationOutcome.thrown)
  else
    let e := ensureCurrentChain env
    if amtBigInt = 0 then (some e, MutationOutcome.rejectedLocal)
    else (some e, MutationOutcome.submitted)

/-- payFee (app.tsx:1490-1525): connected, client-only and Funding-only
guards, then ensureCurrentChain, then straight to the contract write. -/
def payFeeRun (connected : Bool) (role : Role) (s : AppState) : MutationOutcome :=
  if ¬connected then MutationOutcome.thrown
  else if role ≠ Role.client then MutationOutcome.thrown
  else if s.escrowState ≠ some 0 then MutationOutcome.thrown
  else MutationOutcome.submitted

/-- requestRevision (app.tsx:1527-1562): connected, client-only and
Submitted-only guards, then the contract write; no check of revisions against
MAX_REVISIONS. -/
def requestRevisionRun (connected : Bool) (role : Role) (s : AppState) :
    MutationOutcome :=
  if ¬connected then MutationOutcome.thrown
  else if role ≠ Role.client then MutationOutcome.thrown
  else if s.escrowState ≠ some 2 then MutationOutcome.thrown
  else MutationOutcome.submitted

/-- finalizeUmaDispute (app.tsx:1745-1786): connected, Disputed-only and
Base-only guards, the empty-assertion guard, then the local timing rejection
(app.tsx:1754-1761) before any transaction, then the settleDispute write. -/
def finalizeUmaDispute (connected : Bool) (isBase : Bool) (s : AppState)
    (t : Nat) : MutationOutcome :=
  if ¬connected then MutationOutcome.thrown
  else if s.escrowState ≠ some 5 then MutationOutcome.thrown
  else if ¬isBase then MutationOutcome.thrown
  else if emptyAssertion s then MutationOutcome.thrown
  else if 0 < s.disputeAssertionExpiration ∧ t < s.disputeAssertionExpiration then
    MutationOutcome.rejectedLocal
  else MutationOutcome.submitted

/-- The assembled escrow snapshot of one refreshRoleAndState read
(app.tsx:956-974). Addresses and the 32-byte assertion id are modelled by
their numeric value, 0 standing for the zero address or zero hash. -/
structure SnapshotFields where
  client : Nat
  freelancer : Nat
  oracle : Nat
  state : Nat
  depositAmount : Nat
  settlementToken : Nat
  FEE : Nat
  depositDeadline : Nat
  startDeadline : Nat
  completionDeadline : Nat
  revisions : Nat
  MAX_REVISIONS : Nat
  disputeStart : Nat
  DISPUTE_GRACE : Nat
  proofHash : String
  revisionMessage : String
  disputeAssertionId : Nat
  disputeAssertionExpiration : Nat
  accruedFees : Nat
deriving DecidableEq

/-- The nineteen independent readContract results of refreshRoleAndState
(app.tsx:774-940); none models an individual read that failed (rejected). -/
structure FieldReads where
  client : Option Nat
  freelancer : Option Nat
  oracle : Option Nat
  state : Option Nat
  depositAmount : Option Nat
  settlementToken : Option Nat
  FEE : Option Nat
  depositDeadline : Option Nat
  startDeadline : Option Nat
  completionDeadline : Option Nat
  revisions : Option Nat
  MAX_REVISIONS : Option Nat
  disputeStart : Option Nat
  DISPUTE_GRACE : Option Nat
  proofHash : Option String
  revisionMessage : Option String
  disputeAssertionId : Option Nat
  disputeAssertionExpiration : Option Nat
  accruedFees : Option Nat
deriving DecidableEq

/-- Outcome of the snapshot read: either the wrong-chain early exit
(app.tsx:943-954) or a snapshot stored into the state setters. -/
inductive ReadOutcome where
  | wrongChain
  | ok (snap : SnapshotFields)
deriving DecidableEq

/-- refreshRoleAndState read assembly (app.tsx:773-974). Every individual
field read carries a catch handler substituting a per-field default
(app.tsx:801, 828, 835, 886, 900, 907, 921-924, 932, 939): zero address, 0n,
2n for MAX_REVISIONS, 2*24*60*60 = 172800 for DISPUTE_GRACE, the empty string,
and the zero hash. Only when the client, freelancer and oracle reads all come
back as the zero address does the whole read exit early (app.tsx:943-954). -/
def assembleSnapshot (r : FieldReads) : ReadOutcome :=
  let cAddr := r.client.getD 0
  let fAddr := r.freelancer.getD 0
  let oAddr := r.oracle.getD 0
  if cAddr = 0 ∧ fAddr = 0 ∧ oAddr = 0 then ReadOutcome.wrongChain
  else
    ReadOutcome.ok
      { client := cAddr
        freelancer := fAddr
        oracle := oAddr
        state := r.state.getD 0
        depositAmount := r.depositAmount.getD 0
        settlementToken := r.settlementToken.getD 0
        FEE := r.FEE.getD 0
        depositDeadline := r.depositDeadline.getD 0
        startDeadline := r.startDeadline.getD 0
        completionDeadline := r.completionDeadline.getD 0
        revisions := r.revisions.getD 0
        MAX_REVISIONS := r.MAX_REVISIONS.getD 2
        disputeStart := r.disputeStart.getD 0
        DISPUTE_GRACE := r.DISPUTE_GRACE.getD 172800
        proofHash := r.proofHash.getD ""
        revisionMessage := r.revisionMessage.getD ""
        disputeAssertionId := r.disputeAssertionId.getD 0
        disputeAssertionExpiration := r.disputeAssertionExpiration.getD 0
        accruedFees := r.accruedFees.getD 0 }

/-- Model of JavaScript String.prototype.trim on the character list of a
string: whitespace is removed from both ends. -/
def jsTrimList (l : List Char) : List Char :=
  ((l.dropWhile Char.isWhitespace).reverse.dropWhile Char.isWhitespace).reverse

/-- One character of the class [a-zA-Z0-9] of the CID pattern
(app.tsx:187). -/
def isAlnumChar (c : Char) : Bool :=
  (decide ('a' ≤ c) && decide (c ≤ 'z')) ||
  (decide ('A' ≤ c) && decide (c ≤ 'Z')) ||
  (decide ('0' ≤ c) && decide (c ≤ '9'))

/-- The seven characters of the literal ipfs:// scheme. -/
def ipfsScheme : List Char := ['i', 'p', 'f', 's', ':', '/', '/']

/-- The test of the regular expression of normalizeAndValidateCid
(app.tsx:187): exactly 59 characters of the class [a-zA-Z0-9]. -/
def cidBodyOk (l : List Char) : Bool :=
  decide (l.length = 59) && l.all isAlnumChar

/-- The optional stripping of the leading ipfs:// scheme
(app.tsx:180-185). -/
def stripIpfsScheme (l : List Char) : List Char :=
  if l.take 7 = ipfsScheme then l.drop 7 else l

/-- normalizeAndValidateCid (app.tsx:176-192): empty input is rejected, the
input is trimmed, a leading ipfs:// is stripped, the remainder must be exactly
59 alphanumeric characters, and the accepted result is returned with the
ipfs:// scheme restored. -/
def normalizeAndValidateCid (input : String) : Option String :=
  if input.data = [] then none
  else if cidBodyOk (stripIpfsScheme (jsTrimList input.data)) then
    some (String.mk (ipfsScheme ++ stripIpfsScheme (jsTrimList input.data)))
  else none

/-- One character of the class [a-fA-F0-9] of the address pattern
(app.tsx:173). -/
def isHexDigitChar (c : Char) : Bool :=
  (decide ('0' ≤ c) && decide (c ≤ '9')) ||
  (decide ('a' ≤ c) && decide (c ≤ 'f')) ||
  (decide ('A' ≤ c) && decide (c ≤ 'F'))

/-- isValidEthereumAddress (app.tsx:171-174): the trimmed input is tested
against /^0x[a-fA-F0-9]{40}$/i. Under the i flag the literal 0 matches only
the digit 0 while the literal x matches x or X, and the character class is
already case-insensitive. -/
def isValidEthereumAddress (addr : String) : Bool :=
  match jsTrimList addr.data with
  | c0 :: c1 :: rest =>
      decide (c0 = '0') && (decide (c1 = 'x') || decide (c1 = 'X')) &&
        decide (rest.length = 40) && rest.all isHexDigitChar
  | _ => false

/-- JavaScript String.prototype.toLowerCase restricted to ASCII, character by
character. -/
def toLowerChar (c : Char) : Char :=
  if 'A' ≤ c ∧ c ≤ 'Z' then Char.ofNat (c.toNat + 32) else c

/-- One character of the lowercase hexadecimal class [0-9a-f]. -/
def isLowerHexDigitChar (c : Char) : Bool :=
  (decide ('0' ≤ c) && decide (c ≤ '9')) ||
    (decide ('a' ≤ c) && decide (c ≤ 'f'))

/-- The lowercase address pattern: the digit 0, the letter x, then exactly 40
lowercase hexadecimal digits. -/
def lowerPatternOk (l : List Char) : Bool :=
  match l with
  | c0 :: c1 :: rest =>
      decide (c0 = '0') && decide (c1 = 'x') && decide (rest.length = 40) &&
        rest.all isLowerHexDigitChar
  | _ => false

/-- The specified acceptance condition of the escrow-address input, written
from the words of the claim: the trimmed form is 0x followed by 40 hexadecimal
digits, the whole spelling accepted in any letter-case (the source regex
carries the i flag). Stated by lowercasing every character and matching the
lowercase pattern. -/
def specValidAddress (s : String) : Bool :=
  lowerPatternOk ((jsTrimList s.data).map toLowerChar)

/-- Result of handleEscrowChange (app.tsx:316-331) on the component state:
the new value of the escrow field, whether resetEscrowData ran (clearing the
loaded escrow data), and whether the invalid-address toast fired. -/
structure EscrowChangeResult where
  escrow : Option String
  didReset : Bool
  toastedInvalid : Bool
deriving DecidableEq

/-- handleEscrowChange (app.tsx:316-331): empty trimmed input clears the
escrow and resets; a valid address is stored; anything else clears, resets and
toasts the invalid-address error. -/
def handleEscrowChange (value : String) : EscrowChangeResult :=
  if jsTrimList value.data = [] then
    { escrow := none, didReset := true, toastedInvalid := false }
  else if isValidEthereumAddress (String.mk (jsTrimList value.data)) then
    { escrow := some (String.mk (jsTrimList value.data)), didReset := false,
      toastedInvalid := false }
  else
    { escrow := none, didReset := true, toastedInvalid := true }

/-- Sample snapshot in the terminal Approved phase (state 3), satisfying the
data-model invariant disputeStart = 0 outside Disputed. -/
def sApproved : AppState :=
  { escrowState := some 3, depositAmount := 5, accruedFees := 7, FEE := 3,
    depositDeadline := 100, startDeadline := 200, completionDeadline := 300,
    revisions := 1, MAX_REVISIONS := 2, disputeStart := 0,
    DISPUTE_GRACE := 172800, disputeAssertionId := 0,
    disputeAssertionExpiration := 0, tokenAllowance := 10, desiredAmount := 5,
    tokenApprovedOnce := true }

/-- Sample snapshot in the Submitted phase with the revision budget exhausted:
revisions = MAX_REVISIONS = 2. -/
def sSubmittedMax : AppState :=
  { sApproved with escrowState := some 2, revisions := 2 }

/-- Sample Disputed snapshot with disputeStart 1000 and DISPUTE_GRACE 200, so
the grace period ends at 1200. -/
def sDisputed : AppState :=
  { sApproved with escrowState := some 5, disputeStart := 1000, DISPUTE_GRACE := 200 }

/-- Sample Disputed snapshot carrying a live UMA assertion (id 77) expiring at
5000. -/
def sDisputedAsserted : AppState :=
  { sDisputed with disputeAssertionId := 77, disputeAssertionExpiration := 5000 }

/-- Sample Funding snapshot with no deposit and no accrued fees. -/
def sFunding : AppState :=
  { sApproved with escrowState := some 0, depositAmount := 0, accruedFees := 0 }

/-- Sample Funding snapshot where the deposit is already made but the fee is
still unpaid. -/
def sFundingDeposited : AppState :=
  { sApproved with escrowState := some 0, depositAmount := 5, accruedFees := 0 }

/-- Wallet environment on chain 97 targeting 84532, where the user rejects
the switch request. -/
def envSwitchRejected : NetworkEnv :=
  { providerReady := true, walletChainId := 97, targetChainId := 84532
    switchReq := SwitchReqResult.rejectedByUser, addReq := AddReqResult.failed }

/-- Wallet environment targeting a chain id the source does not support. -/
def envUnsupported : NetworkEnv :=
  { envSwitchRejected with targetChainId := 1 }

/-- A concrete set of field reads where exactly one read, depositAmount,
failed (rejected) and every other read succeeded. -/
def readsDepositFailed : FieldReads :=
  { client := some 11, freelancer := some 22, oracle := some 33,
    state := some 1, depositAmount := none, settlementToken := some 44,
    FEE := some 5, depositDeadline := some 100, startDeadline := some 200,
    completionDeadline := some 300, revisions := some 1,
    MAX_REVISIONS := some 3, disputeStart := some 0, DISPUTE_GRACE := some 600,
    proofHash := some "p", revisionMessage := some "m",
    disputeAssertionId := some 0, disputeAssertionExpiration := some 0,
    accruedFees := some 5 }

/-- A concrete already-normalized CID reference: the ipfs:// scheme followed
by 59 alphanumeric characters. -/
def cidSample : String := String.mk (ipfsScheme ++ List.replicate 59 'b')

/-- A concrete 42-character address input with an uppercase X marker and a
mixed-case hexadecimal body. -/
def addrSample : String :=
  String.mk ('0' :: 'X' :: (List.replicate 20 'A' ++ List.replicate 20 'b'))

/-- Clickability of the Create Escrow button (app.tsx:2717-2722): it is
disabled exactly when the freelancer address is invalid or a createEscrow
action itself is pending, so it stays clickable while a different action kind
is pending. -/
def createEscrowButtonClickable (freelancerAddr : String)
    (pendingAction : Option ActionKind) : Bool :=
  isValidEthereumAddress freelancerAddr &&
    decide (pendingAction ≠ some ActionKind.createEscrow)

/-- C1 (counterexample): with a deposit action already pending, a payFee
submission through withPending is not rejected with Busy: the handler is
invoked (handed to the wallet) and the pending-action record is overwritten,
so the original pending entry is not preserved either. -/
theorem c1_counterexample :
    withPendingSubmit (some ActionKind.deposit) ActionKind.payFee
      = (SubmitOutcome.invoked, some ActionKind.payFee) ∧
    (withPendingSubmit (some ActionKind.deposit) ActionKind.payFee).1
      ≠ SubmitOutcome.busy := by
  exact ⟨rfl, by decide⟩

/-- C1 (amended): the orchestrator function withPending never produces a Busy
rejection: for every prior pending state it invokes the handler (handing it
to the wallet) and overwrites the pending record with the new action; and the
UI does not uniformly prevent this either, since the Create Escrow button
stays clickable with a valid freelancer address while any non-createEscrow
action is pending. -/
theorem c1_no_orchestrator_busy (pendingAction : Option ActionKind)
    (a : ActionKind) (addr : String) (p : Option ActionKind)
    (haddr : isValidEthereumAddress addr = true)
    (hp : p ≠ some ActionKind.createEscrow) :
    withPendingSubmit pendingAction a = (SubmitOutcome.invoked, some a) ∧
    (withPendingSubmit pendingAction a).1 ≠ SubmitOutcome.busy ∧
    createEscrowButtonClickable addr p = true := by
  refine ⟨rfl, by simp [withPendingSubmit], ?_⟩
  simp [createEscrowButtonClickable, haddr, hp]

/-- C1 (witness): the amended statement at a pending deposit action, a payFee
submission, and the concrete valid address input. -/
theorem c1_no_orchestrator_busy_witness :
    withPendingSubmit (some ActionKind.deposit) ActionKind.payFee
      = (SubmitOutcome.invoked, some ActionKind.payFee) ∧
    (withPendingSubmit (some ActionKind.deposit) ActionKind.payFee).1
      ≠ SubmitOutcome.busy ∧
    createEscrowButtonClickable addrSample (some ActionKind.deposit) = true :=
  c1_no_orchestrator_busy (some ActionKind.deposit) ActionKind.payFee
    addrSample (some ActionKind.deposit) (by decide) (by decide)

/-- C2: on every snapshot in a terminal phase (Approved = 3 or Resolved = 6)
satisfying the invariant disputeStart = 0 outside Disputed, all twelve
action-gating predicates return false, so no mutating action is permitted. -/
theorem c2_terminal_phase_gates_false (s : AppState) (t : Nat)
    (hphase : s.escrowState = some 3 ∨ s.escrowState = some 6)
    (hds : s.disputeStart = 0) :
    canClientApproveToken s t = false ∧ canClientDeposit s t = false ∧
    canClientPayFee s = false ∧ canRefundNoStart s t = false ∧
    canFreelancerStart s t = false ∧ canFreelancerSubmit s t = false ∧
    canClientApprove s = false ∧ canClientRevise s = false ∧
    canRaiseDispute s = false ∧ canOracleSettle s t = false ∧
    canProposeNow s t = false ∧ canFinalizeUma s t = false := by
  have hgr : graceEndsAt s = 0 := by simp [graceEndsAt, hds]
  have hprop : canProposeNow s t = false := by simp [canProposeNow, hgr]
  rcases hphase with h | h <;>
    simp [canClientApproveToken, canClientDeposit, canClientPayFee,
      canRefundNoStart, isStartDeadlineExceeded, canFreelancerStart,
      canFreelancerSubmit, canClientApprove, canClientRevise, canRaiseDispute,
      canOracleSettle, canFinalizeUma, hprop, h]

/-- C2 (witness): the twelve gates evaluated on a concrete Approved
snapshot. -/
theorem c2_terminal_phase_gates_false_witness :
    canClientApproveToken sApproved 50 = false ∧
    canClientDeposit sApproved 50 = false ∧
    canClientPayFee sApproved = false ∧ canRefundNoStart sApproved 50 = false ∧
    canFreelancerStart sApproved 50 = false ∧
    canFreelancerSubmit sApproved 50 = false ∧
    canClientApprove sApproved = false ∧ canClientRevise sApproved = false ∧
    canRaiseDispute sApproved = false ∧ canOracleSettle sApproved 50 = false ∧
    canProposeNow sApproved 50 = false ∧ canFinalizeUma sApproved 50 = false :=
  c2_terminal_phase_gates_false sApproved 50 (Or.inl rfl) rfl

/-- C3 (counterexample): with every read succeeding except depositAmount, the
snapshot read still succeeds and silently substitutes the default 0 for the
failed field, so the caller receives a partially populated snapshot. -/
theorem c3_counterexample :
    readsDepositFailed.depositAmount = none ∧
    assembleSnapshot readsDepositFailed = ReadOutcome.ok
      { client := 11, freelancer := 22, oracle := 33, state := 1,
        depositAmount := 0, settlementToken := 44, FEE := 5,
        depositDeadline := 100, startDeadline := 200,
        completionDeadline := 300, revisions := 1, MAX_REVISIONS := 3,
        disputeStart := 0, DISPUTE_GRACE := 600, proofHash := "p",
        revisionMessage := "m", disputeAssertionId := 0,
        disputeAssertionExpiration := 0, accruedFees := 5 } := by
  exact ⟨rfl, by decide⟩

/-- C3 (amended): the snapshot read is not all-or-nothing: it aborts (the
wrong-chain early exit) exactly when the client, freelancer and oracle reads
all produce the zero address, and otherwise succeeds with every field taken
from its read when that read succeeded and from its per-field default when it
failed. -/
theorem c3_reads_default_failed_fields (r : FieldReads) :
    (assembleSnapshot r = ReadOutcome.wrongChain ↔
      (r.client.getD 0 = 0 ∧ r.freelancer.getD 0 = 0 ∧ r.oracle.getD 0 = 0)) ∧
    (¬(r.client.getD 0 = 0 ∧ r.freelancer.getD 0 = 0 ∧ r.oracle.getD 0 = 0) →
      assembleSnapshot r = ReadOutcome.ok
        { client := r.client.getD 0, freelancer := r.freelancer.getD 0,
          oracle := r.oracle.getD 0, state := r.state.getD 0,
          depositAmount := r.depositAmount.getD 0,
          settlementToken := r.settlementToken.getD 0, FEE := r.FEE.getD 0,
          depositDeadline := r.depositDeadline.getD 0,
          startDeadline := r.startDeadline.getD 0,
          completionDeadline := r.completionDeadline.getD 0,
          revisions := r.revisions.getD 0,
          MAX_REVISIONS := r.MAX_REVISIONS.getD 2,
          disputeStart := r.disputeStart.getD 0,
          DISPUTE_GRACE := r.DISPUTE_GRACE.getD 172800,
          proofHash := r.proofHash.getD "",
          revisionMessage := r.revisionMessage.getD "",
          disputeAssertionId := r.disputeAssertionId.getD 0,
          disputeAssertionExpiration := r.disputeAssertionExpiration.getD 0,
          accruedFees := r.accruedFees.getD 0 }) := by
  unfold assembleSnapshot
  by_cases h : r.client.getD 0 = 0 ∧ r.freelancer.getD 0 = 0 ∧ r.oracle.getD 0 = 0
  · simp [h]
  · simp [h]

/-- C3 (witness): the amended characterization applied to the concrete reads
with the failed depositAmount field. -/
theorem c3_reads_default_failed_fields_witness :
    assembleSnapshot readsDepositFailed = ReadOutcome.ok
      { client := readsDepositFailed.client.getD 0,
        freelancer := readsDepositFailed.freelancer.getD 0,
        oracle := readsDepositFailed.oracle.getD 0,
        state := readsDepositFailed.state.getD 0,
        depositAmount := readsDepositFailed.depositAmount.getD 0,
        settlementToken := readsDepositFailed.settlementToken.getD 0,
        FEE := readsDepositFailed.FEE.getD 0,
        depositDeadline := readsDepositFailed.depositDeadline.getD 0,
        startDeadline := readsDepositFailed.startDeadline.getD 0,
        completionDeadline := readsDepositFailed.completionDeadline.getD 0,
        revisions := readsDepositFailed.revisions.getD 0,
        MAX_REVISIONS := readsDepositFailed.MAX_REVISIONS.getD 2,
        disputeStart := readsDepositFailed.disputeStart.getD 0,
        DISPUTE_GRACE := readsDepositFailed.DISPUTE_GRACE.getD 172800,
        proofHash := readsDepositFailed.proofHash.getD "",
        revisionMessage := readsDepositFailed.revisionMessage.getD "",
        disputeAssertionId := readsDepositFailed.disputeAssertionId.getD 0,
        disputeAssertionExpiration :=
          readsDepositFailed.disputeAssertionExpiration.getD 0,
        accruedFees := readsDepositFailed.accruedFees.getD 0 } :=
  (c3_reads_default_failed_fields readsDepositFailed).2 (by decide)

/-- C4 (counterexample): a Submitted snapshot whose revision count equals
MAX_REVISIONS still has the requestRevision gate true, contradicting the
claimed revisionCount < maxRevisions condition. -/
theorem c4_counterexample :
    sSubmittedMax.escrowState = some 2 ∧
    sSubmittedMax.revisions = sSubmittedMax.MAX_REVISIONS ∧
    canClientRevise sSubmittedMax = true := by
  decide

/-- C4 (amended): on every Submitted snapshot the requestRevision gate is
true regardless of the revision count (the gate and the handler check only
the phase and the client role, never revisions against MAX_REVISIONS), and
approveJob and raiseDispute are gated true as well. -/
theorem c4_revise_gate_ignores_revisions (s : AppState)
    (h2 : s.escrowState = some 2) :
    canClientRevise s = true ∧ canClientApprove s = true ∧
    canRaiseDispute s = true ∧
    requestRevisionRun true Role.client s = MutationOutcome.submitted := by
  refine ⟨?_, ?_, ?_, ?_⟩ <;>
    simp [canClientRevise, canClientApprove, canRaiseDispute,
      requestRevisionRun, h2]

/-- C4 (witness): the amended statement on the concrete exhausted-revisions
snapshot. -/
theorem c4_revise_gate_ignores_revisions_witness :
    canClientRevise sSubmittedMax = true ∧
    canClientApprove sSubmittedMax = true ∧
    canRaiseDispute sSubmittedMax = true ∧
    requestRevisionRun true Role.client sSubmittedMax
      = MutationOutcome.submitted :=
  c4_revise_gate_ignores_revisions sSubmittedMax rfl

/-- C5: on every Disputed snapshot, both dispute-settlement gates (the
arbiter canOracleSettle and the oracle-variant canProposeNow) are false
strictly before disputeStart + DISPUTE_GRACE, the arbiter gate is true
exactly at that instant, and false one second prior. -/
theorem c5_grace_period_gating (s : AppState) (t : Nat)
    (h5 : s.escrowState = some 5) :
    (t < s.disputeStart + s.DISPUTE_GRACE →
      canOracleSettle s t = false ∧ canProposeNow s t = false) ∧
    canOracleSettle s (s.disputeStart + s.DISPUTE_GRACE) = true ∧
    (0 < s.disputeStart + s.DISPUTE_GRACE →
      canOracleSettle s (s.disputeStart + s.DISPUTE_GRACE - 1) = false) := by
  refine ⟨fun ht => ⟨?_, ?_⟩, ?_, fun hpos => ?_⟩
  · simp only [canOracleSettle, h5, Bool.and_eq_false_iff,
      decide_eq_false_iff_not]
    right
    omega
  · by_cases h0 : s.disputeStart = 0 ∨ s.DISPUTE_GRACE = 0
    · simp [canProposeNow, graceEndsAt, h0]
    · have hg : graceEndsAt s = s.disputeStart + s.DISPUTE_GRACE := by
        simp [graceEndsAt, h0]
      unfold canProposeNow
      rw [hg, if_neg (by omega)]
      simp only [decide_eq_false_iff_not]
      omega
  · simp [canOracleSettle, h5]
  · simp only [canOracleSettle, h5, Bool.and_eq_false_iff,
      decide_eq_false_iff_not]
    right
    omega

/-- C5 (witness): the boundary behavior on the concrete Disputed snapshot
with grace ending at 1200: both gates false at 1199, arbiter gate true at
1200. -/
theorem c5_grace_period_gating_witness :
    (canOracleSettle sDisputed 1199 = false ∧
      canProposeNow sDisputed 1199 = false) ∧
    canOracleSettle sDisputed 1200 = true ∧
    canOracleSettle sDisputed 1199 = false := by
  have h := c5_grace_period_gating sDisputed 1199 rfl
  exact ⟨h.1 (by decide), h.2.1, h.2.2 (by decide)⟩

/-- C6: in the optimistic-oracle variant, finalize is rejected locally (no
transaction submitted) at every instant strictly before the assertion
expiration, in particular at expiration minus one second; it submits exactly
at the expiration instant; and every submission requires a non-zero assertion
id and a time at or past the expiration. -/
theorem c6_finalize_liveness_gating (s : AppState)
    (h5 : s.escrowState = some 5) (hid : s.disputeAssertionId ≠ 0)
    (hexp : 0 < s.disputeAssertionExpiration) :
    (∀ t, t < s.disputeAssertionExpiration →
      finalizeUmaDispute true true s t = MutationOutcome.rejectedLocal) ∧
    finalizeUmaDispute true true s (s.disputeAssertionExpiration - 1)
      = MutationOutcome.rejectedLocal ∧
    finalizeUmaDispute true true s s.disputeAssertionExpiration
      = MutationOutcome.submitted ∧
    (∀ (s2 : AppState) (c b : Bool) (t : Nat),
      finalizeUmaDispute c b s2 t = MutationOutcome.submitted →
      s2.disputeAssertionId ≠ 0 ∧ s2.disputeAssertionExpiration ≤ t) := by
  refine ⟨fun t ht => ?_, ?_, ?_, fun s2 c b t h => ?_⟩
  · simp [finalizeUmaDispute, h5, emptyAssertion, hid, hexp, ht]
  · have ht : s.disputeAssertionExpiration - 1 < s.disputeAssertionExpiration := by
      omega
    simp [finalizeUmaDispute, h5, emptyAssertion, hid, hexp, ht]
  · simp [finalizeUmaDispute, h5, emptyAssertion, hid, hexp]
  · unfold finalizeUmaDispute at h
    split at h
    · exact absurd h (by simp)
    · split at h
      · exact absurd h (by simp)
      · split at h
        · exact absurd h (by simp)
        · split at h
          · exact absurd h (by simp)
          · split at h
            · exact absurd h (by simp)
            · rename_i hc hst hb hassert hcond
              refine ⟨?_, ?_⟩
              · simpa [emptyAssertion] using hassert
              · omega

/-- C6 (witness): the liveness boundary on the concrete asserted snapshot
expiring at 5000: rejected locally at 4999, submitted at 5000. -/
theorem c6_finalize_liveness_gating_witness :
    finalizeUmaDispute true true sDisputedAsserted 4999
      = MutationOutcome.rejectedLocal ∧
    finalizeUmaDispute true true sDisputedAsserted 5000
      = MutationOutcome.submitted := by
  have h := c6_finalize_liveness_gating sDisputedAsserted rfl (by decide)
    (by decide)
  exact ⟨h.1 4999 (by decide), h.2.2.1⟩

/-- C7 (counterexample): with the user rejecting the network switch, and with
an unsupported target network, ensureCurrentChain returns normally and the
deposit submission still proceeds to the contract write instead of failing. -/
theorem c7_counterexample :
    ensureCurrentChain envSwitchRejected = EnsureOutcome.switchCancelled ∧
    depositFn true Role.client sFunding 5 envSwitchRejected
      = (some EnsureOutcome.switchCancelled, MutationOutcome.submitted) ∧
    ensureCurrentChain envUnsupported = EnsureOutcome.unsupported ∧
    depositFn true Role.client sFunding 5 envUnsupported
      = (some EnsureOutcome.unsupported, MutationOutcome.submitted) := by
  decide

/-- C7 (amended): the deposit handler runs ensureCurrentChain before the
write, but the ensure outcome never blocks the submission: the write is
attempted exactly when the local guards pass (connected, client role, Funding
phase, non-zero amount), for every network environment, and ensureCurrentChain
is reached exactly when the guard chain passes. -/
theorem c7_switch_failure_does_not_block (connected : Bool) (role : Role)
    (s : AppState) (amt : Nat) (env : NetworkEnv) :
    ((depositFn connected role s amt env).2 = MutationOutcome.submitted ↔
      (connected = true ∧ role = Role.client ∧ s.escrowState = some 0 ∧
        amt ≠ 0)) ∧
    (depositFn connected role s amt env).1 =
      (if connected = true ∧ role = Role.client ∧ s.escrowState = some 0 then
        some (ensureCurrentChain env)
      else none) := by
  cases connected
  · simp [depositFn]
  · by_cases h2 : role = Role.client
    · by_cases h3 : s.escrowState = some 0
      · by_cases h4 : amt = 0 <;> simp [depositFn, h2, h3, h4]
      · simp [depositFn, h2, h3]
    · simp [depositFn, h2]

/-- C8: the payFee action is reachable only for the client, only in the
Funding phase and only once the deposit is non-zero: a shown payFee button
implies all three, a Funding snapshot with zero deposit never shows the
button (so a client attempt is stopped before any submission), and the payFee
handler itself submits only for the client in Funding. -/
theorem c8_payFee_gate (role : Role) (s : AppState) (t : Nat)
    (p : Option ActionKind) :
    (payFeeButtonShown role s t p = true →
      role = Role.client ∧ s.escrowState = some 0 ∧ 0 < s.depositAmount) ∧
    (s.escrowState = some 0 → s.depositAmount = 0 →
      payFeeButtonShown role s t p = false) ∧
    (∀ c : Bool, payFeeRun c role s = MutationOutcome.submitted →
      role = Role.client ∧ s.escrowState = some 0) := by
  refine ⟨fun h => ?_, fun h0 hdep => ?_, fun c h => ?_⟩
  · simp only [payFeeButtonShown, clientHasActions, showClient,
      canClientPayFee, clientHasDeposit, Bool.and_eq_true, Bool.or_eq_true,
      decide_eq_true_eq] at h
    exact ⟨h.1.1.1.1, h.1.2.1.1, h.1.2.1.2⟩
  · simp [payFeeButtonShown, canClientPayFee, clientHasDeposit, hdep]
  · unfold payFeeRun at h
    split at h
    · exact absurd h (by simp)
    · split at h
      · exact absurd h (by simp)
      · split at h
        · exact absurd h (by simp)
        · rename_i hc hrole hst
          exact ⟨by simpa using hrole, by simpa using hst⟩

/-- C8 (witness): the gate applied to a concrete Funding snapshot with a
deposit (button shown, conclusions hold) and to a concrete Funding snapshot
with zero deposit (button hidden). -/
theorem c8_payFee_gate_witness :
    (Role.client = Role.client ∧ sFundingDeposited.escrowState = some 0 ∧
      0 < sFundingDeposited.depositAmount) ∧
    payFeeButtonShown Role.client sFunding 50 none = false :=
  ⟨(c8_payFee_gate Role.client sFundingDeposited 50 none).1 (by decide),
   (c8_payFee_gate Role.client sFunding 50 none).2.1 rfl rfl⟩

/-- An alphanumeric character is never one of the four whitespace characters
removed by trim. -/
theorem isAlnumChar_not_whitespace {c : Char} (h : isAlnumChar c = true) :
    c.isWhitespace = false := by
  by_contra hne
  rw [Bool.not_eq_false] at hne
  simp only [Char.isWhitespace, Bool.or_eq_true, decide_eq_true_eq] at hne
  rcases hne with ((rfl | rfl) | rfl) | rfl <;> revert h <;> decide

/-- Trimming fixes a string made of the ipfs:// scheme followed by a
non-empty alphanumeric body. -/
theorem jsTrimList_ipfs (body : List Char) (hne : body ≠ [])
    (hall : body.all isAlnumChar = true) :
    jsTrimList (ipfsScheme ++ body) = ipfsScheme ++ body := by
  unfold jsTrimList
  have h1 : (ipfsScheme ++ body).dropWhile Char.isWhitespace
      = ipfsScheme ++ body := by
    rw [show ipfsScheme ++ body = 'i' :: (['p', 'f', 's', ':', '/', '/'] ++ body)
      from rfl]
    exact List.dropWhile_cons_of_neg (by decide)
  rw [h1, List.reverse_append]
  obtain ⟨c, rest, hrev⟩ : ∃ c rest, body.reverse = c :: rest := by
    cases hb : body.reverse with
    | nil => exact absurd (List.reverse_eq_nil_iff.mp hb) hne
    | cons c rest => exact ⟨c, rest, rfl⟩
  have hc : c ∈ body := by
    have hm : c ∈ body.reverse := by
      rw [hrev]
      exact List.mem_cons_self c rest
    exact List.mem_reverse.mp hm
  have hcal : isAlnumChar c = true := List.all_eq_true.mp hall c hc
  rw [hrev, List.cons_append,
    List.dropWhile_cons_of_neg (by simp [isAlnumChar_not_whitespace hcal]),
    ← List.cons_append, ← hrev, ← List.reverse_append, List.reverse_reverse]

/-- C9: the CID normalizer-validator is idempotent on accepted inputs: every
non-null result is the ipfs:// scheme followed by exactly 59 alphanumeric
characters and is returned unchanged when validated again; and it returns
null exactly when the trimmed input, after optionally stripping a leading
ipfs:// scheme, is not exactly 59 alphanumeric characters. -/
theorem c9_cid_normalizer :
    (∀ (s r : String), normalizeAndValidateCid s = some r →
      (∃ body, r.data = ipfsScheme ++ body ∧ body.length = 59 ∧
        body.all isAlnumChar = true) ∧
      normalizeAndValidateCid r = some r) ∧
    (∀ s : String, normalizeAndValidateCid s = none ↔
      cidBodyOk (stripIpfsScheme (jsTrimList s.data)) = false) := by
  constructor
  · intro s r h
    unfold normalizeAndValidateCid at h
    by_cases hemp : s.data = []
    · rw [if_pos hemp] at h
      exact absurd h (by simp)
    · rw [if_neg hemp] at h
      by_cases hok : cidBodyOk (stripIpfsScheme (jsTrimList s.data)) = true
      · rw [if_pos hok] at h
        injection h with hr
        subst hr
        simp only [cidBodyOk, Bool.and_eq_true, decide_eq_true_eq] at hok
        obtain ⟨hlen, hall⟩ := hok
        set body := stripIpfsScheme (jsTrimList s.data) with hbody
        refine ⟨⟨body, rfl, hlen, hall⟩, ?_⟩
        have hbne : body ≠ [] := by
          intro hnil
          rw [hnil] at hlen
          simp at hlen
        have htake : List.take 7 (ipfsScheme ++ body) = ipfsScheme :=
          List.take_left' rfl
        have hdrop : List.drop 7 (ipfsScheme ++ body) = body :=
          List.drop_left' rfl
        have hstrip : stripIpfsScheme (ipfsScheme ++ body) = body := by
          unfold stripIpfsScheme
          rw [if_pos htake, hdrop]
        unfold normalizeAndValidateCid
        rw [show (String.mk (ipfsScheme ++ body)).data = ipfsScheme ++ body
          from rfl]
        rw [if_neg (by simp [ipfsScheme]), jsTrimList_ipfs body hbne hall,
          hstrip, if_pos (by simp [cidBodyOk, hlen, hall])]
      · rw [if_neg hok] at h
        exact absurd h (by simp)
  · intro s
    unfold normalizeAndValidateCid
    by_cases hemp : s.data = []
    · rw [if_pos hemp, hemp]
      simp [jsTrimList, stripIpfsScheme, cidBodyOk, ipfsScheme]
    · rw [if_neg hemp]
      by_cases hok : cidBodyOk (stripIpfsScheme (jsTrimList s.data)) = true
      · rw [if_pos hok]
        simp [hok]
      · rw [if_neg hok]
        simp at hok
        simp [hok]

/-- C9 (witness): the validator applied to a concrete already-normalized CID:
it accepts it, the result has the required shape, and revalidation returns it
unchanged. -/
theorem c9_cid_normalizer_witness :
    (∃ body, cidSample.data = ipfsScheme ++ body ∧ body.length = 59 ∧
      body.all isAlnumChar = true) ∧
    normalizeAndValidateCid cidSample = some cidSample :=
  c9_cid_normalizer.1 cidSample cidSample (by decide)

/-- Comparison of characters coincides with comparison of their numeric
codepoints. -/
theorem char_le_iff {a b : Char} : a ≤ b ↔ a.toNat ≤ b.toNat := by
  rw [Char.le_def, UInt32.le_def, BitVec.le_def]
  exact Iff.rfl

/-- Equality of characters coincides with equality of their numeric
codepoints. -/
theorem char_eq_iff {a b : Char} : a = b ↔ a.toNat = b.toNat := by
  constructor
  · rintro rfl
    rfl
  · intro h
    apply Char.eq_of_val_eq
    apply UInt32.eq_of_toBitVec_eq
    exact BitVec.eq_of_toNat_eq h

/-- The codepoint of a character built from a valid codepoint. -/
theorem toNat_ofNat_valid {n : Nat} (h : n.isValidChar) :
    (Char.ofNat n).toNat = n := by
  unfold Char.ofNat
  rw [dif_pos h]
  unfold Char.ofNatAux Char.toNat UInt32.toNat
  simp

/-- The codepoint of the ASCII lowercasing of a character. -/
theorem toLowerChar_toNat (c : Char) :
    (toLowerChar c).toNat =
      if 65 ≤ c.toNat ∧ c.toNat ≤ 90 then c.toNat + 32 else c.toNat := by
  unfold toLowerChar
  have hAiff : ('A' ≤ c ∧ c ≤ 'Z') ↔ (65 ≤ c.toNat ∧ c.toNat ≤ 90) := by
    rw [char_le_iff, char_le_iff, show Char.toNat 'A' = 65 from rfl,
      show Char.toNat 'Z' = 90 from rfl]
  by_cases h : 'A' ≤ c ∧ c ≤ 'Z'
  · rw [if_pos h, if_pos (hAiff.mp h)]
    have hb := (hAiff.mp h).2
    exact toNat_ofNat_valid (Or.inl (by omega))
  · rw [if_neg h, if_neg (fun hc => h (hAiff.mpr hc))]

/-- A character is a hexadecimal digit of either case exactly when its ASCII
lowercasing is a lowercase hexadecimal digit. -/
theorem isHexDigitChar_toLower (c : Char) :
    isHexDigitChar c = isLowerHexDigitChar (toLowerChar c) := by
  have hl := toLowerChar_toNat c
  rw [Bool.eq_iff_iff]
  simp only [isHexDigitChar, isLowerHexDigitChar, Bool.or_eq_true,
    Bool.and_eq_true, decide_eq_true_eq, char_le_iff, hl,
    show Char.toNat '0' = 48 from rfl, show Char.toNat '9' = 57 from rfl,
    show Char.toNat 'a' = 97 from rfl, show Char.toNat 'f' = 102 from rfl,
    show Char.toNat 'A' = 65 from rfl, show Char.toNat 'F' = 70 from rfl]
  split_ifs with hu <;> omega

/-- A character lowercases to the digit 0 exactly when it is the digit 0. -/
theorem toLowerChar_eq_zero_iff (c : Char) : toLowerChar c = '0' ↔ c = '0' := by
  rw [char_eq_iff, char_eq_iff, toLowerChar_toNat,
    show Char.toNat '0' = 48 from rfl]
  split_ifs with hu <;> omega

/-- A character lowercases to the letter x exactly when it is x or X. -/
theorem toLowerChar_eq_x_iff (c : Char) :
    toLowerChar c = 'x' ↔ (c = 'x' ∨ c = 'X') := by
  simp only [char_eq_iff, toLowerChar_toNat,
    show Char.toNat 'x' = 120 from rfl, show Char.toNat 'X' = 88 from rfl]
  split_ifs with hu <;> omega

/-- The hexadecimal test of either case factors through lowercasing of a
whole list. -/
theorem all_isHex_eq_map_lower (rest : List Char) :
    (rest.map toLowerChar).all isLowerHexDigitChar = rest.all isHexDigitChar := by
  induction rest with
  | nil => rfl
  | cons a l ih =>
      simp only [List.map_cons, List.all_cons, ih, isHexDigitChar_toLower]

/-- C10: the address validator accepts exactly the strings whose trimmed form
is 0x followed by 40 hexadecimal digits, the whole spelling taken in any
letter-case (stated by the equality with the lowercased-pattern acceptance);
acceptance depends only on the lowercased content, so no EIP-55 checksum
verification is performed and any mixed-case spelling of an accepted address
is accepted; and the escrow-address input stores a valid address, while every
other non-empty string is rejected with the loaded escrow data cleared. -/
theorem c10_address_validation :
    (∀ s : String, isValidEthereumAddress s = specValidAddress s) ∧
    (∀ s t : String,
      (jsTrimList s.data).map toLowerChar = (jsTrimList t.data).map toLowerChar →
      isValidEthereumAddress s = isValidEthereumAddress t) ∧
    (∀ v : String,
      (jsTrimList v.data = [] →
        handleEscrowChange v =
          { escrow := none, didReset := true, toastedInvalid := false }) ∧
      (isValidEthereumAddress (String.mk (jsTrimList v.data)) = true →
        handleEscrowChange v =
          { escrow := some (String.mk (jsTrimList v.data)), didReset := false,
            toastedInvalid := false }) ∧
      (jsTrimList v.data ≠ [] →
        isValidEthereumAddress (String.mk (jsTrimList v.data)) = false →
        handleEscrowChange v =
          { escrow := none, didReset := true, toastedInvalid := true })) := by
  have hmain : ∀ s : String, isValidEthereumAddress s = specValidAddress s := by
    intro s
    unfold isValidEthereumAddress specValidAddress lowerPatternOk
    cases hl : jsTrimList s.data with
    | nil => rfl
    | cons c0 tl =>
        cases tl with
        | nil => rfl
        | cons c1 rest =>
            simp only [List.map_cons]
            rw [show decide (toLowerChar c0 = '0') = decide (c0 = '0') from
                decide_eq_decide.mpr (toLowerChar_eq_zero_iff c0),
              show decide (toLowerChar c1 = 'x')
                  = (decide (c1 = 'x') || decide (c1 = 'X')) from by
                rw [decide_eq_decide.mpr (toLowerChar_eq_x_iff c1),
                  Bool.decide_or],
              all_isHex_eq_map_lower rest]
            simp only [List.length_map]
  refine ⟨hmain, fun s t h => ?_,
    fun v => ⟨fun hnil => ?_, fun hv => ?_, fun hne hv => ?_⟩⟩
  · rw [hmain s, hmain t]
    unfold specValidAddress
    rw [h]
  · unfold handleEscrowChange
    rw [if_pos hnil]
  · unfold handleEscrowChange
    have hne : ¬jsTrimList v.data = [] := by
      intro h0
      rw [show String.mk (jsTrimList v.data) = String.mk [] from by rw [h0]]
        at hv
      exact absurd hv (by decide)
    rw [if_neg hne, if_pos hv]
  · unfold handleEscrowChange
    rw [if_neg hne, if_neg (by simp [hv])]

/-- C10 (witness): a concrete mixed-case address with an uppercase marker is
accepted and stored, and a concrete non-address input is rejected with the
escrow data cleared. -/
theorem c10_address_validation_witness :
    handleEscrowChange addrSample =
      { escrow := some (String.mk (jsTrimList addrSample.data)),
        didReset := false, toastedInvalid := false } ∧
    handleEscrowChange (String.mk ['h', 'i']) =
      { escrow := none, didReset := true, toastedInvalid := true } :=
  ⟨(c10_address_validation.2.2 addrSample).2.1 (by decide),
   (c10_address_validation.2.2 (String.mk ['h', 'i'])).2.2 (by decide)
     (by decide)⟩
